import Mathlib

/-!
# go-dealmaker: validation, deal-request assembly and command traces

A shallow embedding of `go-dealmaker/main.go`.

* `ValidateCreateFlags`, `ValidateStatusFlags` and the two command actions are
  translated statement by statement.
* The library calls whose result depends on a parser, a codec or the network
  (`url.Parse`, `cid.Decode`, `crypto.HexToECDSA`, `ethclient.Dial`, the
  generated contract binding) are fields of a `World`; every general theorem is
  stated for an arbitrary `World`.
* `common.IsHexAddress` and `bind.NewKeyedTransactorWithChainID` are small
  total library functions and are embedded directly.
* A command run yields the list of remote actions it performed (`Event`) and
  the way the process ended (`Exit`).
-/

namespace Dealmaker

/-! ## Library values -/

/-- Types of the library values that the program stores and hands on but never
inspects itself. -/
structure Carriers where
  /-- The type `url.URL`. -/
  URL : Type
  /-- The type `ecdsa.PrivateKey`. -/
  PrivateKey : Type
  /-- The type `ethclient.Client`. -/
  Conn : Type
  /-- The bound contract returned by `NewContract`. -/
  Contract : Type
  /-- The type `types.Transaction`. -/
  Tx : Type
  /-- The value returned by the `PieceStatus` call. -/
  Status : Type

/-- The type `common.Address`, a sequence of bytes. -/
abbrev Address := List Nat

/-- The type `cid.Cid`, `struct{ str string }`: the binary form of the
identifier.  The zero value is `cid.Undef`. -/
structure Cid where
  /-- The bytes of the field `str`. -/
  str : List Nat
deriving DecidableEq, Repr

/-- The method `Cid.Bytes`, `[]byte(c.str)`. -/
def Cid.Bytes (c : Cid) : List Nat := c.str

/-- The conversion `uint64(x)` of an `int64`: the value modulo `2^64`. -/
def uint64 (x : Int) : Nat := (x % 2 ^ 64).toNat

/-- The range of the type `int64`. -/
def isInt64 (x : Int) : Prop := -(2 ^ 63) ≤ x ∧ x < 2 ^ 63

/-! ## `common.IsHexAddress` (go-ethereum)

Go strings are byte strings.  A hexadecimal digit is one byte and one
character, and a string holding any other character is rejected whatever its
length, so on text the test below, which reads characters, returns what the
byte-wise test returns. -/

/-- The go-ethereum helper `has0xPrefix`:
`len(str) >= 2 && str[0] == '0' && (str[1] == 'x' || str[1] == 'X')`. -/
def has0xPrefix (str : List Char) : Bool :=
  match str with
  | c0 :: c1 :: _ => c0 == '0' && (c1 == 'x' || c1 == 'X')
  | _ => false

/-- The go-ethereum helper `isHexCharacter`. -/
def isHexCharacter (c : Char) : Bool :=
  ('0'.toNat ≤ c.toNat && c.toNat ≤ '9'.toNat) ||
  ('a'.toNat ≤ c.toNat && c.toNat ≤ 'f'.toNat) ||
  ('A'.toNat ≤ c.toNat && c.toNat ≤ 'F'.toNat)

/-- The go-ethereum helper `isHex`: even length and hexadecimal digits only. -/
def isHex (str : List Char) : Bool :=
  if str.length % 2 != 0 then false else str.all isHexCharacter

/-- The length in bytes of `common.Address`. -/
def AddressLength : Nat := 20

/-- The go-ethereum function `common.IsHexAddress`:
`if has0xPrefix(s) { s = s[2:] }; return len(s) == 2*AddressLength && isHex(s)`. -/
def IsHexAddress (s : String) : Bool :=
  let s0 := s.toList
  let s1 := if has0xPrefix s0 then s0.drop 2 else s0
  s1.length == 2 * AddressLength && isHex s1

/-! ## The command line -/

/-- The flag values that the actions read from `cli.Context`.  A flag that is
absent from the command line reads as `""`, `0` or `false`. -/
structure Context where
  /-- The value of `cCtx.String("rpc-endpoint")`. -/
  rpcEndpoint : String
  /-- The value of `cCtx.String("contract")`. -/
  contract : String
  /-- The value of `cCtx.String("piece-cid")`. -/
  pieceCid : String
  /-- The value of `cCtx.Int64("piece-size")`. -/
  pieceSize : Int
  /-- The value of `cCtx.Bool("verified")`. -/
  verified : Bool
  /-- The value of `cCtx.String("payload-cid")`. -/
  payloadCid : String
  /-- The value of `cCtx.Int64("start-epoch")`. -/
  startEpoch : Int
  /-- The value of `cCtx.Int64("end-epoch")`. -/
  endEpoch : Int
  /-- The value of `cCtx.String("location-ref")`. -/
  locationRef : String
  /-- The value of `cCtx.Int64("car-size")`. -/
  carSize : Int
  /-- The value of `cCtx.String("private-key")`. -/
  privateKey : String
  /-- The value of `cCtx.Int64("chain-id")`. -/
  chainId : Int

/-- The struct `CreateFlags`.  Pointer fields are `Option`s, `none` being the
nil pointer. -/
structure CreateFlags (T : Carriers) where
  /-- Field `RPCEndpoint *url.URL`. -/
  RPCEndpoint : Option T.URL
  /-- Field `Contract common.Address`. -/
  Contract : Address
  /-- Field `PieceCID cid.Cid`. -/
  PieceCID : Cid
  /-- Field `PieceSize int64`. -/
  PieceSize : Int
  /-- Field `Verified bool`. -/
  Verified : Bool
  /-- Field `PayloadCID cid.Cid`. -/
  PayloadCID : Cid
  /-- Field `StartEpoch int64`. -/
  StartEpoch : Int
  /-- Field `EndEpoch int64`. -/
  EndEpoch : Int
  /-- Field `LocationRef *url.URL`. -/
  LocationRef : Option T.URL
  /-- Field `CarSize int64`. -/
  CarSize : Int
  /-- Field `PrivateKey *ecdsa.PrivateKey`. -/
  PrivateKey : Option T.PrivateKey
  /-- Field `ChainID int64`. -/
  ChainID : Int

/-- The struct `StatusFlags`.  The source declares it and does not use it:
`ValidateStatusFlags` returns a `CreateFlags`. -/
structure StatusFlags (T : Carriers) where
  /-- Field `RPCEndpoint *url.URL`. -/
  RPCEndpoint : Option T.URL
  /-- Field `Contract common.Address`. -/
  Contract : Address
  /-- Field `PieceCID cid.Cid`. -/
  PieceCID : Cid

/-- The struct `ExtraParamsV1` of the contract binding, as the literal in
`createCmd.Action` fills it. -/
structure ExtraParamsV1 where
  /-- Field `LocationRef string`. -/
  LocationRef : String
  /-- Field `CarSize uint64`. -/
  CarSize : Nat
  /-- Field `SkipIpniAnnounce bool`. -/
  SkipIpniAnnounce : Bool
  /-- Field `RemoveUnsealedCopy bool`. -/
  RemoveUnsealedCopy : Bool
deriving DecidableEq, Repr

/-- The struct `DealRequest` of the contract binding, as the literal in
`createCmd.Action` fills it. -/
structure DealRequest where
  /-- Field `PieceCid []byte`. -/
  PieceCid : List Nat
  /-- Field `PieceSize uint64`. -/
  PieceSize : Nat
  /-- Field `VerifiedDeal bool`. -/
  VerifiedDeal : Bool
  /-- Field `Label string`. -/
  Label : String
  /-- Field `StartEpoch int64`. -/
  StartEpoch : Int
  /-- Field `EndEpoch int64`. -/
  EndEpoch : Int
  /-- Field `StoragePricePerEpoch *big.Int`. -/
  StoragePricePerEpoch : Int
  /-- Field `ProviderCollateral *big.Int`. -/
  ProviderCollateral : Int
  /-- Field `ClientCollateral *big.Int`. -/
  ClientCollateral : Int
  /-- Field `ExtraParamsVersion`. -/
  ExtraParamsVersion : Nat
  /-- Field `ExtraParams ExtraParamsV1`. -/
  ExtraParams : ExtraParamsV1
deriving DecidableEq, Repr

/-- The struct `bind.TransactOpts` as far as `NewKeyedTransactorWithChainID`
fixes it: the key that signs and the chain the signature is bound to. -/
structure TransactOpts (T : Carriers) where
  /-- The signing key. -/
  key : T.PrivateKey
  /-- The chain id of the signer. -/
  chainID : Int

/-- The library calls whose results the program cannot compute by itself. -/
structure World (T : Carriers) where
  /-- The function `url.Parse`. -/
  urlParse : String → Except String T.URL
  /-- The method `(*url.URL).String` on a non-nil pointer. -/
  urlString : T.URL → String
  /-- The function `cid.Decode`. -/
  cidDecode : String → Except String Cid
  /-- The method `Cid.String`. -/
  cidString : Cid → String
  /-- The function `crypto.HexToECDSA`. -/
  hexToECDSA : String → Except String T.PrivateKey
  /-- The function `common.HexToAddress`. -/
  hexToAddress : String → Address
  /-- The function `ethclient.Dial`. -/
  dial : String → Except String T.Conn
  /-- The binding constructor `NewContract`. -/
  newContract : Address → T.Conn → Except String T.Contract
  /-- The binding method `MakeDealProposal`. -/
  makeDealProposal : T.Contract → TransactOpts T → DealRequest → Except String T.Tx
  /-- The binding method `PieceStatus`, called with nil call options. -/
  pieceStatus : T.Contract → List Nat → Except String T.Status
  /-- The text `fmt.Println` prints for `tx.Hash()`. -/
  txHashString : T.Tx → String
  /-- The text `fmt.Println` prints for a status. -/
  statusString : T.Status → String

/-- The function `bind.NewKeyedTransactorWithChainID` (go-ethereum): it fails
with `ErrNoChainID` on a nil chain id and otherwise returns the signer. -/
def NewKeyedTransactorWithChainID {T : Carriers} (key : T.PrivateKey)
    (chainID : Option Int) : Except String (TransactOpts T) :=
  match chainID with
  | none => .error "no chain id specified"
  | some c => .ok { key := key, chainID := c }

/-! ## Validation -/

/-- What a validator call ends in: the bundle with a nil error, a non-nil
error (the zero bundle that comes with it is dropped by both callers), or
`log.Fatal`, which prints and exits the process. -/
inductive Outcome (α : Type) where
  | ok (a : α)
  | err (e : String)
  | fatal (e : String)

/-- The zero value `CreateFlags{}`. -/
def CreateFlags.zero (T : Carriers) : CreateFlags T :=
  { RPCEndpoint := none, Contract := [], PieceCID := ⟨[]⟩, PieceSize := 0,
    Verified := false, PayloadCID := ⟨[]⟩, StartEpoch := 0, EndEpoch := 0,
    LocationRef := none, CarSize := 0, PrivateKey := none, ChainID := 0 }

/-- The function `ValidateCreateFlags`. -/
def ValidateCreateFlags {T : Carriers} (w : World T) (cCtx : Context) :
    Outcome (CreateFlags T) :=
  match w.urlParse cCtx.rpcEndpoint with
  | .error err => .err err
  | .ok rpcEndpoint =>
    if !IsHexAddress cCtx.contract then
      .err "contract is not an ETH address"
    else
      match w.cidDecode cCtx.pieceCid with
      | .error err => .err err
      | .ok pieceCID =>
        match w.cidDecode cCtx.payloadCid with
        | .error err => .err err
        | .ok payloadCID =>
          match w.urlParse cCtx.locationRef with
          | .error err => .err err
          | .ok locationRef =>
            match w.hexToECDSA cCtx.privateKey with
            | .error err => .fatal err
            | .ok pk =>
              .ok { RPCEndpoint := some rpcEndpoint
                    Contract := w.hexToAddress cCtx.contract
                    PieceCID := pieceCID
                    PieceSize := cCtx.pieceSize
                    Verified := cCtx.verified
                    PayloadCID := payloadCID
                    StartEpoch := cCtx.startEpoch
                    EndEpoch := cCtx.endEpoch
                    LocationRef := some locationRef
                    CarSize := cCtx.carSize
                    PrivateKey := some pk
                    ChainID := cCtx.chainId }

/-- The function `ValidateStatusFlags`; it returns a `CreateFlags` with the
three fields it sets and the zero value elsewhere. -/
def ValidateStatusFlags {T : Carriers} (w : World T) (cCtx : Context) :
    Outcome (CreateFlags T) :=
  match w.urlParse cCtx.rpcEndpoint with
  | .error err => .err err
  | .ok rpcEndpoint =>
    if !IsHexAddress cCtx.contract then
      .err "contract is not an ETH address"
    else
      match w.cidDecode cCtx.pieceCid with
      | .error err => .err err
      | .ok pieceCID =>
        .ok { CreateFlags.zero T with
              RPCEndpoint := some rpcEndpoint
              Contract := w.hexToAddress cCtx.contract
              PieceCID := pieceCID }

/-! ## The commands -/

/-- The remote actions and the output of a command run, in program order. -/
inductive Event (T : Carriers) where
  /-- The call `ethclient.Dial(rawurl)`. -/
  | dial (rawurl : String)
  /-- The call `NewContract(address, conn)`. -/
  | newContract (address : Address)
  /-- The call `contract.MakeDealProposal(auth, dealRequest)`. -/
  | makeDealProposal (auth : TransactOpts T) (dealRequest : DealRequest)
  /-- The call `contract.PieceStatus(nil, pieceCid)`. -/
  | pieceStatus (pieceCid : List Nat)
  /-- The call `fmt.Println`. -/
  | println (line : String)

/-- How a command run ends. -/
inductive Exit where
  /-- The action returned nil. -/
  | success
  /-- The action returned an error, which `main` passes to `log.Fatal`. -/
  | error (e : String)
  /-- The run reached `log.Fatal` below `main`. -/
  | fatal (e : String)
  /-- A nil pointer was dereferenced. -/
  | nilDeref
deriving DecidableEq, Repr

/-- A command run: what it did and how it ended. -/
structure Run (T : Carriers) where
  /-- The events of the run, oldest first. -/
  trace : List (Event T)
  /-- The end of the run. -/
  exit : Exit

/-- The `DealRequest{...}` literal of `createCmd.Action`; `none` when the
literal dereferences a nil `LocationRef`. -/
def dealRequest {T : Carriers} (w : World T) (flags : CreateFlags T) : Option DealRequest :=
  match flags.LocationRef with
  | none => none
  | some locationRef =>
    some { PieceCid := flags.PieceCID.Bytes
           PieceSize := uint64 flags.PieceSize
           VerifiedDeal := flags.Verified
           Label := w.cidString flags.PayloadCID
           StartEpoch := flags.StartEpoch
           EndEpoch := flags.EndEpoch
           StoragePricePerEpoch := 0
           ProviderCollateral := 0
           ClientCollateral := 0
           ExtraParamsVersion := 1
           ExtraParams :=
             { LocationRef := w.urlString locationRef
               CarSize := uint64 flags.CarSize
               SkipIpniAnnounce := false
               RemoveUnsealedCopy := false } }

/-- The function `createCmd.Action`. -/
def createCmd.Action {T : Carriers} (w : World T) (cCtx : Context) : Run T :=
  match ValidateCreateFlags w cCtx with
  | .err err => ⟨[], .error err⟩
  | .fatal err => ⟨[], .fatal err⟩
  | .ok flags =>
    match flags.RPCEndpoint with
    | none => ⟨[], .nilDeref⟩
    | some rpcEndpoint =>
      let rawurl := w.urlString rpcEndpoint
      match w.dial rawurl with
      | .error err => ⟨[.dial rawurl], .fatal err⟩
      | .ok conn =>
        match w.newContract flags.Contract conn with
        | .error err => ⟨[.dial rawurl, .newContract flags.Contract], .fatal err⟩
        | .ok contract =>
          match dealRequest w flags, flags.PrivateKey with
          | some req, some key =>
            match NewKeyedTransactorWithChainID key (some flags.ChainID) with
            | .error err => ⟨[.dial rawurl, .newContract flags.Contract], .error err⟩
            | .ok auth =>
              match w.makeDealProposal contract auth req with
              | .error err =>
                ⟨[.dial rawurl, .newContract flags.Contract, .makeDealProposal auth req],
                  .error err⟩
              | .ok tx =>
                ⟨[.dial rawurl, .newContract flags.Contract, .makeDealProposal auth req,
                  .println (w.txHashString tx)], .success⟩
          | _, _ => ⟨[.dial rawurl, .newContract flags.Contract], .nilDeref⟩

/-- The function `statusCmd.Action`. -/
def statusCmd.Action {T : Carriers} (w : World T) (cCtx : Context) : Run T :=
  match ValidateStatusFlags w cCtx with
  | .err err => ⟨[], .error err⟩
  | .fatal err => ⟨[], .fatal err⟩
  | .ok flags =>
    match flags.RPCEndpoint with
    | none => ⟨[], .nilDeref⟩
    | some rpcEndpoint =>
      let rawurl := w.urlString rpcEndpoint
      match w.dial rawurl with
      | .error err => ⟨[.dial rawurl], .fatal err⟩
      | .ok conn =>
        match w.newContract flags.Contract conn with
        | .error err => ⟨[.dial rawurl, .newContract flags.Contract], .fatal err⟩
        | .ok contract =>
          match w.pieceStatus contract flags.PieceCID.Bytes with
          | .error err =>
            ⟨[.dial rawurl, .newContract flags.Contract, .pieceStatus flags.PieceCID.Bytes],
              .fatal err⟩
          | .ok status =>
            ⟨[.dial rawurl, .newContract flags.Contract, .pieceStatus flags.PieceCID.Bytes,
              .println (w.statusString status)], .success⟩

/-! ## Reading a trace -/

/-- Whether an event is an RPC dial. -/
def Event.isDial {T : Carriers} : Event T → Bool
  | .dial _ => true
  | _ => false

/-- Whether an event is a contract binding. -/
def Event.isBind {T : Carriers} : Event T → Bool
  | .newContract _ => true
  | _ => false

/-- Whether an event is a signed submission. -/
def Event.isSubmit {T : Carriers} : Event T → Bool
  | .makeDealProposal _ _ => true
  | _ => false

/-- Whether an event is a read call. -/
def Event.isRead {T : Carriers} : Event T → Bool
  | .pieceStatus _ => true
  | _ => false

/-- Whether an event reaches out of the process. -/
def Event.isNetwork {T : Carriers} (e : Event T) : Bool :=
  e.isDial || e.isBind || e.isSubmit || e.isRead

/-- The number of signed submissions of a run. -/
def Run.submissions {T : Carriers} (r : Run T) : Nat := r.trace.countP Event.isSubmit

/-- The number of read calls of a run. -/
def Run.reads {T : Carriers} (r : Run T) : Nat := r.trace.countP Event.isRead

/-- The deal requests that a run submitted. -/
def Run.submitted {T : Carriers} (r : Run T) : List DealRequest :=
  r.trace.filterMap fun e =>
    match e with
    | .makeDealProposal _ req => some req
    | _ => none

/-- The events of a run after its first contract call (submission or read). -/
def afterRemoteCall {T : Carriers} : List (Event T) → List (Event T)
  | [] => []
  | e :: rest => if e.isSubmit || e.isRead then rest else afterRemoteCall rest

/-! ## The address format and the checksum casing the specification speaks of -/

/-- Forty hexadecimal digits. -/
def hexDigits40 (body : List Char) : Prop :=
  body.length = 40 ∧ ∀ c ∈ body, isHexCharacter c = true

/-- The rotation of a 64-bit lane to the left. -/
def rotl64 (x n : Nat) : Nat := ((x <<< n) ||| (x >>> (64 - n))) % 2 ^ 64

/-- Lane `(x, y)` of a Keccak state of 25 lanes. -/
def lane (st : List Nat) (x y : Nat) : Nat := st.getD (x % 5 + 5 * (y % 5)) 0

/-- One step of the shift register that generates the round constants. -/
def lfsrStep (r : Nat) : Nat := if 128 ≤ r then (2 * r) ^^^ 0x171 else 2 * r

/-- Output bit `t` of the shift register. -/
def rcBit (t : Nat) : Nat := (lfsrStep^[t % 255] 1) % 2

/-- The constant of round `ir`. -/
def roundConstant (ir : Nat) : Nat :=
  (List.range 7).foldl (fun acc j => acc + rcBit (j + 7 * ir) * 2 ^ (2 ^ j - 1)) 0

/-- The rotation offsets, collected along the walk `(x, y) ↦ (y, 2x + 3y)`
that starts at `(1, 0)`. -/
def rhoWalk : Nat → Nat × Nat → List ((Nat × Nat) × Nat) → List ((Nat × Nat) × Nat)
  | 0, _, acc => acc
  | t + 1, (x, y), acc =>
    let k := 24 - (t + 1)
    rhoWalk t (y, (2 * x + 3 * y) % 5) (((x, y), ((k + 1) * (k + 2) / 2) % 64) :: acc)

/-- The rotation offset of lane `(x, y)`. -/
def rhoOffset (x y : Nat) : Nat :=
  match (rhoWalk 24 (1, 0) []).find? (fun e => e.1 == (x, y)) with
  | some e => e.2
  | none => 0

/-- The step θ of Keccak-f[1600]. -/
def theta (st : List Nat) : List Nat :=
  let c := fun x => lane st x 0 ^^^ lane st x 1 ^^^ lane st x 2 ^^^ lane st x 3 ^^^ lane st x 4
  let d := fun x => c (x + 4) ^^^ rotl64 (c (x + 1)) 1
  (List.range 25).map fun i => st.getD i 0 ^^^ d (i % 5)

/-- The steps ρ and π of Keccak-f[1600]. -/
def rhoPi (st : List Nat) : List Nat :=
  (List.range 25).map fun i =>
    let sx := (i % 5 + 3 * (i / 5)) % 5
    rotl64 (lane st sx (i % 5)) (rhoOffset sx (i % 5))

/-- The step χ of Keccak-f[1600]. -/
def chi (st : List Nat) : List Nat :=
  (List.range 25).map fun i =>
    lane st (i % 5) (i / 5) ^^^
      (((2 ^ 64 - 1) ^^^ lane st (i % 5 + 1) (i / 5)) &&& lane st (i % 5 + 2) (i / 5))

/-- The step ι of Keccak-f[1600]. -/
def iota (ir : Nat) (st : List Nat) : List Nat :=
  match st with
  | [] => []
  | a :: rest => (a ^^^ roundConstant ir) :: rest

/-- The permutation Keccak-f[1600], 24 rounds. -/
def keccakF (st : List Nat) : List Nat :=
  (List.range 24).foldl (fun s ir => iota ir (chi (rhoPi (theta s)))) st

/-- The little-endian value of a list of bytes. -/
def leLane (bs : List Nat) : Nat := bs.foldr (fun b acc => b + 256 * acc) 0

/-- The 25 lanes of a block of 136 bytes. -/
def blockLanes (block : List Nat) : List Nat :=
  (List.range 25).map fun i => if i < 17 then leLane ((block.drop (8 * i)).take 8) else 0

/-- The absorbing phase, block by block. -/
def absorb : Nat → List Nat → List Nat → List Nat
  | 0, _, st => st
  | fuel + 1, msg, st =>
    if msg.isEmpty then st
    else absorb fuel (msg.drop 136)
      (keccakF (List.zipWith (fun a b => a ^^^ b) st (blockLanes (msg.take 136))))

/-- The Keccak padding to a multiple of 136 bytes. -/
def keccakPad (msg : List Nat) : List Nat :=
  let q := 136 - msg.length % 136
  if q == 1 then msg ++ [0x81] else msg ++ [0x01] ++ List.replicate (q - 2) 0 ++ [0x80]

/-- The hash Keccak-256 of a list of bytes. -/
def keccak256 (msg : List Nat) : List Nat :=
  let st := absorb (msg.length + 1) (keccakPad msg) (List.replicate 25 0)
  (List.range 32).map fun i => (st.getD (i / 8) 0 >>> (8 * (i % 8))) % 256

/-- Hexadecimal digit `i` of a hash. -/
def hashNibble (h : List Nat) (i : Nat) : Nat :=
  if i % 2 == 0 then h.getD (i / 2) 0 / 16 else h.getD (i / 2) 0 % 16

/-- The checksum casing (EIP-55) of the hexadecimal digits of an address: the
letter at place `i` is a capital exactly when digit `i` of the Keccak-256 hash
of the lower-case digits is at least 8. -/
def toChecksumCase (body : List Char) : List Char :=
  let lower := body.map Char.toLower
  let h := keccak256 (lower.map Char.toNat)
  (List.range lower.length).map fun i =>
    if 8 ≤ hashNibble h i then (lower.getD i '0').toUpper else lower.getD i '0'

/-- A well-formed hex address in the words of the specification: the prefix
`0x`, then 40 hexadecimal digits in their checksum casing. -/
def wellFormedHexAddress (s : String) : Bool :=
  match s.toList with
  | '0' :: 'x' :: body =>
    body.length == 40 && body.all isHexCharacter && toChecksumCase body == body
  | _ => false

/-- A string lacks the prefix `0x`. -/
abbrev lacks0xPrefix (s : String) : Prop := s.toList.take 2 ≠ ['0', 'x']

/-! ## A sample world

It decodes the few inputs used below the way the libraries do and refuses
every other input; its network never fails. -/

/-- Carriers of the sample worlds. -/
abbrev sampleT : Carriers :=
  { URL := String, PrivateKey := Nat, Conn := String, Contract := Address,
    Tx := String, Status := Nat }

/-- The private key 1, as 64 hexadecimal digits. -/
def sampleKey : String := "0000000000000000000000000000000000000000000000000000000000000001"

/-- The address 1, as 40 hexadecimal digits after `0x`. -/
def sampleAddress : String := "0x0000000000000000000000000000000000000001"

/-- The identity CID of the empty block, `bafkqaaa`, in binary form. -/
def sampleCid : Cid := ⟨[1, 85, 0, 0]⟩

/-- The sample world.  Its `hexToAddress` is the address 1, the value of the
contract strings that pass validation below. -/
def sampleWorld : World sampleT :=
  { urlParse := fun s =>
      if s = "" ∨ s = "http://localhost:8545" ∨ s = "http://example.com/f.car" then .ok s
      else if s = ":foo" then .error "parse \":foo\": missing protocol scheme"
      else .error "url outside the sample world"
    urlString := fun u => u
    cidDecode := fun s =>
      if s = "bafkqaaa" then .ok sampleCid
      else if s = "" then .error "cid too short"
      else .error "cid outside the sample world"
    cidString := fun c => if c = sampleCid then "bafkqaaa" else ""
    hexToECDSA := fun s =>
      if s = sampleKey then .ok (1 : Nat)
      else if s = "" then .error "invalid length, need 256 bits"
      else .error "key outside the sample world"
    hexToAddress := fun _ => List.replicate 19 0 ++ [1]
    dial := fun rawurl => .ok rawurl
    newContract := fun address _ => .ok address
    makeDealProposal := fun _ _ _ => .ok "0x01"
    pieceStatus := fun _ _ => .ok (0 : Nat)
    txHashString := fun tx => tx
    statusString := fun st => toString (st : Nat) }

/-- The sample world with a network on which every contract call fails. -/
def failingWorld : World sampleT :=
  { sampleWorld with
    makeDealProposal := fun _ _ _ => .error "connection refused"
    pieceStatus := fun _ _ => .error "connection refused" }

/-- A command line that passes validation in the sample world. -/
def sampleCtx : Context :=
  { rpcEndpoint := "http://localhost:8545"
    contract := sampleAddress
    pieceCid := "bafkqaaa"
    pieceSize := 1024
    verified := false
    payloadCid := "bafkqaaa"
    startEpoch := 100
    endEpoch := 200
    locationRef := "http://example.com/f.car"
    carSize := 2048
    privateKey := sampleKey
    chainId := 314 }

/-- The bundle that `ValidateCreateFlags` returns with a nil error. -/
def createFlagsOf {T : Carriers} (w : World T) (cCtx : Context) (rpcEndpoint : T.URL)
    (pieceCID payloadCID : Cid) (locationRef : T.URL) (pk : T.PrivateKey) : CreateFlags T :=
  { RPCEndpoint := some rpcEndpoint
    Contract := w.hexToAddress cCtx.contract
    PieceCID := pieceCID
    PieceSize := cCtx.pieceSize
    Verified := cCtx.verified
    PayloadCID := payloadCID
    StartEpoch := cCtx.startEpoch
    EndEpoch := cCtx.endEpoch
    LocationRef := some locationRef
    CarSize := cCtx.carSize
    PrivateKey := some pk
    ChainID := cCtx.chainId }

/-- The create inputs all pass their checks, with the decoded values named. -/
def CreateValid {T : Carriers} (w : World T) (cCtx : Context) (rpcEndpoint : T.URL)
    (pieceCID payloadCID : Cid) (locationRef : T.URL) (pk : T.PrivateKey) : Prop :=
  w.urlParse cCtx.rpcEndpoint = .ok rpcEndpoint ∧
  IsHexAddress cCtx.contract = true ∧
  w.cidDecode cCtx.pieceCid = .ok pieceCID ∧
  w.cidDecode cCtx.payloadCid = .ok payloadCID ∧
  w.urlParse cCtx.locationRef = .ok locationRef ∧
  w.hexToECDSA cCtx.privateKey = .ok pk

/-- Some create input fails its check. -/
def CreateInputFails {T : Carriers} (w : World T) (cCtx : Context) : Prop :=
  (∃ e, w.urlParse cCtx.rpcEndpoint = .error e) ∨
  IsHexAddress cCtx.contract = false ∨
  (∃ e, w.cidDecode cCtx.pieceCid = .error e) ∨
  (∃ e, w.cidDecode cCtx.payloadCid = .error e) ∨
  (∃ e, w.urlParse cCtx.locationRef = .error e) ∨
  (∃ e, w.hexToECDSA cCtx.privateKey = .error e)

/-- Some status input fails its check. -/
def StatusInputFails {T : Carriers} (w : World T) (cCtx : Context) : Prop :=
  (∃ e, w.urlParse cCtx.rpcEndpoint = .error e) ∨
  IsHexAddress cCtx.contract = false ∨
  (∃ e, w.cidDecode cCtx.pieceCid = .error e)

/-- The bundle that validation returns for `sampleCtx` in the sample world. -/
def sampleFlags : CreateFlags sampleT :=
  createFlagsOf sampleWorld sampleCtx "http://localhost:8545" sampleCid sampleCid
    "http://example.com/f.car" (1 : Nat)

/-- A command line with piece-size 0, negative epochs, start after end, a
negative car-size and chain-id 0. -/
def oddNumbersCtx : Context :=
  { sampleCtx with pieceSize := 0, startEpoch := -5, endEpoch := -7, carSize := -1, chainId := 0 }

/-- The command line of the end-to-end create scenario, for a given contract,
CIDs and private key. -/
def scenarioCtx (contract pieceCid payloadCid privateKey : String) : Context :=
  { rpcEndpoint := "http://localhost:8545"
    contract := contract
    pieceCid := pieceCid
    pieceSize := 1024
    verified := false
    payloadCid := payloadCid
    startEpoch := 100
    endEpoch := 200
    locationRef := "http://example.com/f.car"
    carSize := 2048
    privateKey := privateKey
    chainId := 314 }

/-! ## Lemmas on validation -/

section Validation

variable {T : Carriers}

theorem validateCreate_of_valid (w : World T) (cCtx : Context) (rpcEndpoint : T.URL)
    (pieceCID payloadCID : Cid) (locationRef : T.URL) (pk : T.PrivateKey)
    (h : CreateValid w cCtx rpcEndpoint pieceCID payloadCID locationRef pk) :
    ValidateCreateFlags w cCtx =
      .ok (createFlagsOf w cCtx rpcEndpoint pieceCID payloadCID locationRef pk) := by
  obtain ⟨h1, h2, h3, h4, h5, h6⟩ := h
  simp [ValidateCreateFlags, createFlagsOf, h1, h2, h3, h4, h5, h6]

theorem validateCreate_ok_inv (w : World T) (cCtx : Context) (flags : CreateFlags T)
    (h : ValidateCreateFlags w cCtx = .ok flags) :
    ∃ rpcEndpoint pieceCID payloadCID locationRef pk,
      CreateValid w cCtx rpcEndpoint pieceCID payloadCID locationRef pk ∧
      flags = createFlagsOf w cCtx rpcEndpoint pieceCID payloadCID locationRef pk := by
  unfold ValidateCreateFlags at h
  split at h
  · cases h
  · rename_i rpc h1
    split at h
    · cases h
    · rename_i h2
      split at h
      · cases h
      · rename_i pc h3
        split at h
        · cases h
        · rename_i pl h4
          split at h
          · cases h
          · rename_i loc h5
            split at h
            · cases h
            · rename_i pk h6
              refine ⟨rpc, pc, pl, loc, pk, ⟨h1, ?_, h3, h4, h5, h6⟩, ?_⟩
              · simpa using h2
              · cases h
                rfl

theorem validateCreate_not_ok_of_fails (w : World T) (cCtx : Context)
    (h : CreateInputFails w cCtx) (flags : CreateFlags T) :
    ValidateCreateFlags w cCtx ≠ .ok flags := by
  intro hok
  obtain ⟨rpc, pc, pl, loc, pk, ⟨h1, h2, h3, h4, h5, h6⟩, -⟩ := validateCreate_ok_inv w cCtx flags hok
  rcases h with ⟨e, he⟩ | he | ⟨e, he⟩ | ⟨e, he⟩ | ⟨e, he⟩ | ⟨e, he⟩
  · rw [h1] at he; cases he
  · rw [h2] at he; cases he
  · rw [h3] at he; cases he
  · rw [h4] at he; cases he
  · rw [h5] at he; cases he
  · rw [h6] at he; cases he

theorem validateStatus_ok_inv (w : World T) (cCtx : Context) (flags : CreateFlags T)
    (h : ValidateStatusFlags w cCtx = .ok flags) :
    ∃ rpcEndpoint pieceCID,
      w.urlParse cCtx.rpcEndpoint = .ok rpcEndpoint ∧ IsHexAddress cCtx.contract = true ∧
      w.cidDecode cCtx.pieceCid = .ok pieceCID ∧
      flags = { CreateFlags.zero T with
                RPCEndpoint := some rpcEndpoint
                Contract := w.hexToAddress cCtx.contract
                PieceCID := pieceCID } := by
  unfold ValidateStatusFlags at h
  split at h
  · cases h
  · rename_i rpc h1
    split at h
    · cases h
    · rename_i h2
      split at h
      · cases h
      · rename_i pc h3
        refine ⟨rpc, pc, h1, ?_, h3, ?_⟩
        · simpa using h2
        · cases h
          rfl

theorem validateStatus_not_fatal (w : World T) (cCtx : Context) (e : String) :
    ValidateStatusFlags w cCtx ≠ .fatal e := by
  unfold ValidateStatusFlags
  repeat' split
  all_goals simp

theorem validateStatus_not_ok_of_fails (w : World T) (cCtx : Context)
    (h : StatusInputFails w cCtx) (flags : CreateFlags T) :
    ValidateStatusFlags w cCtx ≠ .ok flags := by
  intro hok
  obtain ⟨rpc, pc, h1, h2, h3, -⟩ := validateStatus_ok_inv w cCtx flags hok
  rcases h with ⟨e, he⟩ | he | ⟨e, he⟩
  · rw [h1] at he; cases he
  · rw [h2] at he; cases he
  · rw [h3] at he; cases he

theorem createAction_of_not_ok (w : World T) (cCtx : Context)
    (h : ∀ flags, ValidateCreateFlags w cCtx ≠ .ok flags) :
    (createCmd.Action w cCtx).trace = [] ∧ (createCmd.Action w cCtx).exit ≠ .success := by
  unfold createCmd.Action
  split
  · simp
  · simp
  · rename_i flags hok
    exact absurd hok (h flags)

theorem statusAction_of_not_ok (w : World T) (cCtx : Context)
    (h : ∀ flags, ValidateStatusFlags w cCtx ≠ .ok flags) :
    (statusCmd.Action w cCtx).trace = [] ∧ (statusCmd.Action w cCtx).exit ≠ .success := by
  unfold statusCmd.Action
  split
  · simp
  · simp
  · rename_i flags hok
    exact absurd hok (h flags)

theorem uint64_cast (x : Int) : ((uint64 x : Nat) : Int) = x % 2 ^ 64 := by
  unfold uint64
  exact Int.toNat_of_nonneg (Int.emod_nonneg x (by norm_num))

end Validation

/-! ## The deal request (C1, C8, C10) -/

section DealRequestFacts

variable {T : Carriers}

theorem dealRequest_createFlagsOf (w : World T) (cCtx : Context) (rpcEndpoint : T.URL)
    (pieceCID payloadCID : Cid) (locationRef : T.URL) (pk : T.PrivateKey) :
    dealRequest w (createFlagsOf w cCtx rpcEndpoint pieceCID payloadCID locationRef pk) =
      some { PieceCid := pieceCID.Bytes
             PieceSize := uint64 cCtx.pieceSize
             VerifiedDeal := cCtx.verified
             Label := w.cidString payloadCID
             StartEpoch := cCtx.startEpoch
             EndEpoch := cCtx.endEpoch
             StoragePricePerEpoch := 0
             ProviderCollateral := 0
             ClientCollateral := 0
             ExtraParamsVersion := 1
             ExtraParams :=
               { LocationRef := w.urlString locationRef
                 CarSize := uint64 cCtx.carSize
                 SkipIpniAnnounce := false
                 RemoveUnsealedCopy := false } } := rfl

theorem createAction_submitted_of_valid (w : World T) (cCtx : Context) (rpcEndpoint : T.URL)
    (pieceCID payloadCID : Cid) (locationRef : T.URL) (pk : T.PrivateKey)
    (h : CreateValid w cCtx rpcEndpoint pieceCID payloadCID locationRef pk) (req : DealRequest)
    (hreq : dealRequest w (createFlagsOf w cCtx rpcEndpoint pieceCID payloadCID locationRef pk)
      = some req) :
    ∀ r ∈ (createCmd.Action w cCtx).submitted, r = req := by
  have hv := validateCreate_of_valid w cCtx rpcEndpoint pieceCID payloadCID locationRef pk h
  rw [dealRequest_createFlagsOf] at hreq
  cases hreq
  unfold createCmd.Action
  rw [hv]
  simp only [createFlagsOf, dealRequest, NewKeyedTransactorWithChainID]
  repeat' split
  all_goals simp_all [Run.submitted]

end DealRequestFacts

/-- C1 (amended): for every flag bundle that `ValidateCreateFlags` returns, the
`DealRequest` of the create command has `PieceCid` the binary form of the
decoded piece CID, `VerifiedDeal` the verified flag, `Label` the string form of
the decoded payload CID, the input epochs, zero price and collaterals,
`ExtraParamsVersion = 1`, `ExtraParams.LocationRef` the string form of the
parsed location-ref, both boolean flags false, and `ExtraParams.CarSize` the
input car-size modulo `2^64`, which is the input car-size when that is not
negative; it is the only request the run can submit, and an equal bundle
yields the same request. -/
theorem C1_dealRequest_fields {T : Carriers} (w : World T) (cCtx : Context)
    (flags : CreateFlags T) (h : ValidateCreateFlags w cCtx = .ok flags) :
    ∃ pieceCID payloadCID locationRef req,
      w.cidDecode cCtx.pieceCid = .ok pieceCID ∧
      w.cidDecode cCtx.payloadCid = .ok payloadCID ∧
      w.urlParse cCtx.locationRef = .ok locationRef ∧
      dealRequest w flags = some req ∧
      req.PieceCid = pieceCID.Bytes ∧
      req.VerifiedDeal = cCtx.verified ∧
      req.Label = w.cidString payloadCID ∧
      req.StartEpoch = cCtx.startEpoch ∧
      req.EndEpoch = cCtx.endEpoch ∧
      req.StoragePricePerEpoch = 0 ∧
      req.ProviderCollateral = 0 ∧
      req.ClientCollateral = 0 ∧
      req.ExtraParamsVersion = 1 ∧
      req.ExtraParams.LocationRef = w.urlString locationRef ∧
      (req.ExtraParams.CarSize : Int) = cCtx.carSize % 2 ^ 64 ∧
      (0 ≤ cCtx.carSize → cCtx.carSize < 2 ^ 63 →
        (req.ExtraParams.CarSize : Int) = cCtx.carSize) ∧
      req.ExtraParams.SkipIpniAnnounce = false ∧
      req.ExtraParams.RemoveUnsealedCopy = false ∧
      (∀ r ∈ (createCmd.Action w cCtx).submitted, r = req) ∧
      (∀ flags2 : CreateFlags T, flags2 = flags → dealRequest w flags2 = some req) := by
  obtain ⟨rpc, pc, pl, loc, pk, hvalid, rfl⟩ := validateCreate_ok_inv w cCtx flags h
  have hreq := dealRequest_createFlagsOf w cCtx rpc pc pl loc pk
  obtain ⟨-, -, h3, h4, h5, -⟩ := id hvalid
  refine ⟨pc, pl, loc, _, h3, h4, h5, hreq, rfl, rfl, rfl, rfl, rfl, rfl, rfl, rfl, rfl, rfl,
    uint64_cast _, ?_, rfl, rfl, ?_, ?_⟩
  · intro h0 h1
    rw [uint64_cast]
    exact Int.emod_eq_of_lt h0 (by omega)
  · exact createAction_submitted_of_valid w cCtx rpc pc pl loc pk hvalid _ hreq
  · rintro flags2 rfl
    exact hreq

/-- The statement C1 at the sample command line: validation returns
`sampleFlags`, and the request carries the sample values. -/
theorem C1_dealRequest_fields_witness :
    ValidateCreateFlags sampleWorld sampleCtx = .ok sampleFlags ∧
    ∃ req, dealRequest sampleWorld sampleFlags = some req ∧
      req.PieceCid = [1, 85, 0, 0] ∧ req.Label = "bafkqaaa" ∧
      req.StartEpoch = 100 ∧ req.EndEpoch = 200 ∧
      req.StoragePricePerEpoch = 0 ∧ req.ExtraParamsVersion = 1 ∧
      req.ExtraParams.LocationRef = "http://example.com/f.car" ∧
      (req.ExtraParams.CarSize : Int) = 2048 := by
  refine ⟨rfl, ?_⟩
  obtain ⟨pc, pl, loc, req, h1, h2, h3, hreq, e1, -, e3, e4, e5, e6, -, -, e9, e10, -, e12, -⟩ :=
    C1_dealRequest_fields sampleWorld sampleCtx sampleFlags rfl
  cases h1
  cases h2
  cases h3
  exact ⟨req, hreq, e1, e3, e4, e5, e6, e9, e10, e12 (by decide) (by decide)⟩

/-- C1 as stated fails: with car-size `-1` the validated bundle keeps `-1` and
the request carries `ExtraParams.CarSize = 18446744073709551615`. -/
theorem C1_carSize_counterexample :
    ∃ flags req,
      ValidateCreateFlags sampleWorld { sampleCtx with carSize := -1 } = .ok flags ∧
      dealRequest sampleWorld flags = some req ∧
      flags.CarSize = -1 ∧
      req.ExtraParams.CarSize = 18446744073709551615 ∧
      (req.ExtraParams.CarSize : Int) ≠ flags.CarSize :=
  ⟨_, _, rfl, rfl, rfl, by decide, by decide⟩

/-- C8: when the non-numeric create inputs are valid, then for all values of
piece-size, start-epoch, end-epoch, car-size and chain-id (every integer, so
every signed 64-bit value, zero, negative or with start at or after end)
`ValidateCreateFlags` succeeds and returns these values unchanged, and the
create command builds a `DealRequest` whose `StartEpoch` and `EndEpoch` are
the inputs. -/
theorem C8_numeric_pass_through {T : Carriers} (w : World T) (cCtx : Context)
    (rpcEndpoint : T.URL) (pieceCID payloadCID : Cid) (locationRef : T.URL) (pk : T.PrivateKey)
    (h : CreateValid w cCtx rpcEndpoint pieceCID payloadCID locationRef pk) :
    ∃ flags req,
      ValidateCreateFlags w cCtx = .ok flags ∧
      flags.PieceSize = cCtx.pieceSize ∧
      flags.StartEpoch = cCtx.startEpoch ∧
      flags.EndEpoch = cCtx.endEpoch ∧
      flags.CarSize = cCtx.carSize ∧
      flags.ChainID = cCtx.chainId ∧
      dealRequest w flags = some req ∧
      req.StartEpoch = cCtx.startEpoch ∧
      req.EndEpoch = cCtx.endEpoch :=
  ⟨_, _, validateCreate_of_valid w cCtx rpcEndpoint pieceCID payloadCID locationRef pk h,
    rfl, rfl, rfl, rfl, rfl,
    dealRequest_createFlagsOf w cCtx rpcEndpoint pieceCID payloadCID locationRef pk, rfl, rfl⟩

/-- The statement C8 at `oddNumbersCtx` in the sample world. -/
theorem C8_numeric_pass_through_witness :
    CreateValid sampleWorld oddNumbersCtx "http://localhost:8545" sampleCid sampleCid
      "http://example.com/f.car" (1 : Nat) ∧
    ∃ flags req,
      ValidateCreateFlags sampleWorld oddNumbersCtx = .ok flags ∧
      flags.PieceSize = 0 ∧ flags.StartEpoch = -5 ∧ flags.EndEpoch = -7 ∧
      flags.CarSize = -1 ∧ flags.ChainID = 0 ∧
      dealRequest sampleWorld flags = some req ∧
      req.StartEpoch = -5 ∧ req.EndEpoch = -7 :=
  have hv : CreateValid sampleWorld oddNumbersCtx "http://localhost:8545" sampleCid sampleCid
      "http://example.com/f.car" (1 : Nat) := ⟨rfl, by decide, rfl, rfl, rfl, rfl⟩
  ⟨hv, C8_numeric_pass_through sampleWorld oddNumbersCtx "http://localhost:8545" sampleCid
    sampleCid "http://example.com/f.car" (1 : Nat) hv⟩

/-- C10: for signed 64-bit inputs piece-size `n` and car-size `m` of a validated
create command line, the request has `PieceSize = n mod 2^64` and
`ExtraParams.CarSize = m mod 2^64`; each field equals its input exactly when
the input is not negative, a negative input gives a value of at least `2^63`,
and the input `-1` gives `2^64 - 1`. -/
theorem C10_uint64_reinterpretation {T : Carriers} (w : World T) (cCtx : Context)
    (flags : CreateFlags T) (h : ValidateCreateFlags w cCtx = .ok flags)
    (hn : isInt64 cCtx.pieceSize) (hm : isInt64 cCtx.carSize) :
    ∃ req, dealRequest w flags = some req ∧
      (req.PieceSize : Int) = cCtx.pieceSize % 2 ^ 64 ∧
      (req.ExtraParams.CarSize : Int) = cCtx.carSize % 2 ^ 64 ∧
      ((req.PieceSize : Int) = cCtx.pieceSize ↔ 0 ≤ cCtx.pieceSize) ∧
      ((req.ExtraParams.CarSize : Int) = cCtx.carSize ↔ 0 ≤ cCtx.carSize) ∧
      (cCtx.pieceSize < 0 → 2 ^ 63 ≤ req.PieceSize) ∧
      (cCtx.carSize < 0 → 2 ^ 63 ≤ req.ExtraParams.CarSize) ∧
      (cCtx.pieceSize = -1 → req.PieceSize = 2 ^ 64 - 1) ∧
      (cCtx.carSize = -1 → req.ExtraParams.CarSize = 2 ^ 64 - 1) := by
  obtain ⟨rpc, pc, pl, loc, pk, -, rfl⟩ := validateCreate_ok_inv w cCtx flags h
  refine ⟨_, dealRequest_createFlagsOf w cCtx rpc pc pl loc pk, ?_⟩
  have e1 := uint64_cast cCtx.pieceSize
  have e2 := uint64_cast cCtx.carSize
  simp only [isInt64] at hn hm
  generalize uint64 cCtx.pieceSize = a at e1
  generalize uint64 cCtx.carSize = b at e2
  generalize cCtx.pieceSize = n at *
  generalize cCtx.carSize = m at *
  simp only
  refine ⟨e1, e2, ?_, ?_, ?_, ?_, ?_, ?_⟩ <;> omega

/-- The statement C10 at `oddNumbersCtx` (piece-size 0, car-size -1). -/
theorem C10_uint64_reinterpretation_witness :
    ValidateCreateFlags sampleWorld oddNumbersCtx =
      .ok (createFlagsOf sampleWorld oddNumbersCtx "http://localhost:8545" sampleCid sampleCid
        "http://example.com/f.car" (1 : Nat)) ∧
    isInt64 oddNumbersCtx.pieceSize ∧ isInt64 oddNumbersCtx.carSize ∧
    ∃ req, dealRequest sampleWorld (createFlagsOf sampleWorld oddNumbersCtx
        "http://localhost:8545" sampleCid sampleCid "http://example.com/f.car" (1 : Nat))
        = some req ∧
      req.PieceSize = 0 ∧ req.ExtraParams.CarSize = 2 ^ 64 - 1 := by
  have hn : isInt64 oddNumbersCtx.pieceSize := by
    constructor <;> decide
  have hm : isInt64 oddNumbersCtx.carSize := by
    constructor <;> decide
  refine ⟨rfl, hn, hm, ?_⟩
  obtain ⟨req, hreq, e1, -, -, -, -, -, -, e8⟩ :=
    C10_uint64_reinterpretation sampleWorld oddNumbersCtx _ rfl hn hm
  refine ⟨req, hreq, ?_, e8 rfl⟩
  have : (req.PieceSize : Int) = 0 := e1
  exact_mod_cast this

/-! ## Validation failures (C4, C7) -/

/-- C4: in both commands, when an input fails its check (create: rpc-endpoint,
contract, piece-cid, payload-cid, location-ref, private-key; status:
rpc-endpoint, contract, piece-cid) the run has an empty trace, so no RPC dial,
no contract binding, no signed submission and no read call, and the run does
not end in success. -/
theorem C4_validation_before_network {T : Carriers} (w : World T) (cCtx : Context) :
    (CreateInputFails w cCtx →
      (createCmd.Action w cCtx).trace = [] ∧
      (createCmd.Action w cCtx).trace.any Event.isNetwork = false ∧
      (createCmd.Action w cCtx).exit ≠ .success) ∧
    (StatusInputFails w cCtx →
      (statusCmd.Action w cCtx).trace = [] ∧
      (statusCmd.Action w cCtx).trace.any Event.isNetwork = false ∧
      (statusCmd.Action w cCtx).exit ≠ .success) := by
  constructor
  · intro h
    obtain ⟨h1, h2⟩ := createAction_of_not_ok w cCtx (validateCreate_not_ok_of_fails w cCtx h)
    exact ⟨h1, by rw [h1]; rfl, h2⟩
  · intro h
    obtain ⟨h1, h2⟩ := statusAction_of_not_ok w cCtx (validateStatus_not_ok_of_fails w cCtx h)
    exact ⟨h1, by rw [h1]; rfl, h2⟩

/-- The statement C4 at a command line whose piece-cid is not a CID: the
create run and the status run of the sample world both have an empty trace. -/
theorem C4_validation_before_network_witness :
    CreateInputFails sampleWorld { sampleCtx with pieceCid := "not-a-cid" } ∧
    StatusInputFails sampleWorld { sampleCtx with pieceCid := "not-a-cid" } ∧
    (createCmd.Action sampleWorld { sampleCtx with pieceCid := "not-a-cid" }).trace = [] ∧
    (statusCmd.Action sampleWorld { sampleCtx with pieceCid := "not-a-cid" }).trace = [] :=
  have hc : CreateInputFails sampleWorld { sampleCtx with pieceCid := "not-a-cid" } :=
    Or.inr (Or.inr (Or.inl ⟨_, rfl⟩))
  have hs : StatusInputFails sampleWorld { sampleCtx with pieceCid := "not-a-cid" } :=
    Or.inr (Or.inr ⟨_, rfl⟩)
  ⟨hc, hs,
    ((C4_validation_before_network sampleWorld { sampleCtx with pieceCid := "not-a-cid" }).1 hc).1,
    ((C4_validation_before_network sampleWorld { sampleCtx with pieceCid := "not-a-cid" }).2 hs).1⟩

/-- C7: when the private-key does not decode, `ValidateCreateFlags` returns no
flag bundle; when the other fields are valid the outcome is the key-decode
failure as a `log.Fatal` process exit, not an error value, and there the
create run ends with an empty trace. -/
theorem C7_private_key_fatal {T : Carriers} (w : World T) (cCtx : Context) (e : String)
    (hkey : w.hexToECDSA cCtx.privateKey = .error e) :
    (∀ flags, ValidateCreateFlags w cCtx ≠ .ok flags) ∧
    (∀ rpcEndpoint pieceCID payloadCID locationRef,
      w.urlParse cCtx.rpcEndpoint = .ok rpcEndpoint →
      IsHexAddress cCtx.contract = true →
      w.cidDecode cCtx.pieceCid = .ok pieceCID →
      w.cidDecode cCtx.payloadCid = .ok payloadCID →
      w.urlParse cCtx.locationRef = .ok locationRef →
      ValidateCreateFlags w cCtx = .fatal e ∧
      (∀ e2, ValidateCreateFlags w cCtx ≠ .err e2) ∧
      (createCmd.Action w cCtx).trace = [] ∧
      (createCmd.Action w cCtx).exit = .fatal e) := by
  constructor
  · exact validateCreate_not_ok_of_fails w cCtx
      (Or.inr (Or.inr (Or.inr (Or.inr (Or.inr ⟨e, hkey⟩)))))
  · intro rpc pc pl loc h1 h2 h3 h4 h5
    have hv : ValidateCreateFlags w cCtx = .fatal e := by
      simp [ValidateCreateFlags, h1, h2, h3, h4, h5, hkey]
    refine ⟨hv, ?_, ?_, ?_⟩
    · intro e2 h
      rw [hv] at h
      cases h
    · simp [createCmd.Action, hv]
    · simp [createCmd.Action, hv]

/-- The statement C7 at the sample command line without a private key. -/
theorem C7_private_key_fatal_witness :
    sampleWorld.hexToECDSA ({ sampleCtx with privateKey := "" } : Context).privateKey =
      .error "invalid length, need 256 bits" ∧
    ValidateCreateFlags sampleWorld { sampleCtx with privateKey := "" } =
      .fatal "invalid length, need 256 bits" ∧
    (createCmd.Action sampleWorld { sampleCtx with privateKey := "" }).exit =
      .fatal "invalid length, need 256 bits" :=
  have h := (C7_private_key_fatal sampleWorld { sampleCtx with privateKey := "" }
    "invalid length, need 256 bits" rfl).2 "http://localhost:8545" sampleCid sampleCid
    "http://example.com/f.car" rfl (by decide) rfl rfl rfl
  ⟨rfl, h.1, h.2.2.2⟩

/-! ## Remote calls (C5, C9) -/

section RemoteCalls

variable {T : Carriers}

theorem createAction_of_bound (w : World T) (cCtx : Context) (rpcEndpoint : T.URL)
    (pieceCID payloadCID : Cid) (locationRef : T.URL) (pk : T.PrivateKey)
    (conn : T.Conn) (contract : T.Contract) (req : DealRequest)
    (h : CreateValid w cCtx rpcEndpoint pieceCID payloadCID locationRef pk)
    (hdial : w.dial (w.urlString rpcEndpoint) = .ok conn)
    (hbind : w.newContract (w.hexToAddress cCtx.contract) conn = .ok contract)
    (hreq : dealRequest w (createFlagsOf w cCtx rpcEndpoint pieceCID payloadCID locationRef pk)
      = some req) :
    createCmd.Action w cCtx =
      match w.makeDealProposal contract { key := pk, chainID := cCtx.chainId } req with
      | .error err =>
        ⟨[.dial (w.urlString rpcEndpoint), .newContract (w.hexToAddress cCtx.contract),
          .makeDealProposal { key := pk, chainID := cCtx.chainId } req], .error err⟩
      | .ok tx =>
        ⟨[.dial (w.urlString rpcEndpoint), .newContract (w.hexToAddress cCtx.contract),
          .makeDealProposal { key := pk, chainID := cCtx.chainId } req,
          .println (w.txHashString tx)], .success⟩ := by
  have hv := validateCreate_of_valid w cCtx rpcEndpoint pieceCID payloadCID locationRef pk h
  unfold createCmd.Action
  rw [hv]
  simp only [hreq]
  simp only [createFlagsOf, hdial, hbind, NewKeyedTransactorWithChainID]

theorem statusAction_of_bound (w : World T) (cCtx : Context) (rpcEndpoint : T.URL)
    (pieceCID : Cid) (conn : T.Conn) (contract : T.Contract)
    (h1 : w.urlParse cCtx.rpcEndpoint = .ok rpcEndpoint)
    (h2 : IsHexAddress cCtx.contract = true)
    (h3 : w.cidDecode cCtx.pieceCid = .ok pieceCID)
    (hdial : w.dial (w.urlString rpcEndpoint) = .ok conn)
    (hbind : w.newContract (w.hexToAddress cCtx.contract) conn = .ok contract) :
    statusCmd.Action w cCtx =
      match w.pieceStatus contract pieceCID.Bytes with
      | .error err =>
        ⟨[.dial (w.urlString rpcEndpoint), .newContract (w.hexToAddress cCtx.contract),
          .pieceStatus pieceCID.Bytes], .fatal err⟩
      | .ok status =>
        ⟨[.dial (w.urlString rpcEndpoint), .newContract (w.hexToAddress cCtx.contract),
          .pieceStatus pieceCID.Bytes, .println (w.statusString status)], .success⟩ := by
  have hv : ValidateStatusFlags w cCtx = .ok { CreateFlags.zero T with
      RPCEndpoint := some rpcEndpoint
      Contract := w.hexToAddress cCtx.contract
      PieceCID := pieceCID } := by
    simp [ValidateStatusFlags, h1, h2, h3]
  unfold statusCmd.Action
  rw [hv]
  simp only [hdial, hbind]

theorem createAction_counts (w : World T) (cCtx : Context) :
    (createCmd.Action w cCtx).submissions ≤ 1 ∧ (createCmd.Action w cCtx).reads = 0 ∧
    (∀ ev ∈ afterRemoteCall (createCmd.Action w cCtx).trace, ev.isNetwork = false) ∧
    ((createCmd.Action w cCtx).exit ≠ .success →
      afterRemoteCall (createCmd.Action w cCtx).trace = []) := by
  unfold createCmd.Action
  simp only [NewKeyedTransactorWithChainID]
  repeat' split
  all_goals
    simp [Run.submissions, Run.reads, afterRemoteCall, Event.isSubmit, Event.isRead,
      Event.isNetwork, Event.isDial, Event.isBind]

theorem statusAction_counts (w : World T) (cCtx : Context) :
    (statusCmd.Action w cCtx).reads ≤ 1 ∧ (statusCmd.Action w cCtx).submissions = 0 ∧
    (∀ ev ∈ afterRemoteCall (statusCmd.Action w cCtx).trace, ev.isNetwork = false) ∧
    ((statusCmd.Action w cCtx).exit ≠ .success →
      afterRemoteCall (statusCmd.Action w cCtx).trace = []) := by
  simp only [statusCmd.Action]
  repeat' split
  all_goals
    simp [Run.submissions, Run.reads, afterRemoteCall, Event.isSubmit, Event.isRead,
      Event.isNetwork, Event.isDial, Event.isBind]

end RemoteCalls

/-- C9: a create run submits `MakeDealProposal` at most once and never calls
`PieceStatus`; a status run calls `PieceStatus` at most once and never
submits; in both, no remote action follows the contract call, and a run that
does not end in success stops at it.  When the one attempt fails, the run is
the dial, the binding and that call, and it ends with the call's error
(returned by create, fatal in status). -/
theorem C9_single_attempt {T : Carriers} (w : World T) (cCtx : Context) :
    ((createCmd.Action w cCtx).submissions ≤ 1 ∧ (createCmd.Action w cCtx).reads = 0 ∧
      (∀ ev ∈ afterRemoteCall (createCmd.Action w cCtx).trace, ev.isNetwork = false) ∧
      ((createCmd.Action w cCtx).exit ≠ .success →
        afterRemoteCall (createCmd.Action w cCtx).trace = [])) ∧
    ((statusCmd.Action w cCtx).reads ≤ 1 ∧ (statusCmd.Action w cCtx).submissions = 0 ∧
      (∀ ev ∈ afterRemoteCall (statusCmd.Action w cCtx).trace, ev.isNetwork = false) ∧
      ((statusCmd.Action w cCtx).exit ≠ .success →
        afterRemoteCall (statusCmd.Action w cCtx).trace = [])) ∧
    (∀ rpcEndpoint pieceCID payloadCID locationRef pk conn contract req err,
      CreateValid w cCtx rpcEndpoint pieceCID payloadCID locationRef pk →
      w.dial (w.urlString rpcEndpoint) = .ok conn →
      w.newContract (w.hexToAddress cCtx.contract) conn = .ok contract →
      dealRequest w (createFlagsOf w cCtx rpcEndpoint pieceCID payloadCID locationRef pk)
        = some req →
      w.makeDealProposal contract { key := pk, chainID := cCtx.chainId } req = .error err →
      (createCmd.Action w cCtx).trace =
        [.dial (w.urlString rpcEndpoint), .newContract (w.hexToAddress cCtx.contract),
          .makeDealProposal { key := pk, chainID := cCtx.chainId } req] ∧
      (createCmd.Action w cCtx).exit = .error err) ∧
    (∀ rpcEndpoint pieceCID conn contract err,
      w.urlParse cCtx.rpcEndpoint = .ok rpcEndpoint →
      IsHexAddress cCtx.contract = true →
      w.cidDecode cCtx.pieceCid = .ok pieceCID →
      w.dial (w.urlString rpcEndpoint) = .ok conn →
      w.newContract (w.hexToAddress cCtx.contract) conn = .ok contract →
      w.pieceStatus contract pieceCID.Bytes = .error err →
      (statusCmd.Action w cCtx).trace =
        [.dial (w.urlString rpcEndpoint), .newContract (w.hexToAddress cCtx.contract),
          .pieceStatus pieceCID.Bytes] ∧
      (statusCmd.Action w cCtx).exit = .fatal err) := by
  refine ⟨createAction_counts w cCtx, statusAction_counts w cCtx, ?_, ?_⟩
  · intro rpc pc pl loc pk conn contract req err hv hdial hbind hreq hfail
    rw [createAction_of_bound w cCtx rpc pc pl loc pk conn contract req hv hdial hbind hreq,
      hfail]
    exact ⟨rfl, rfl⟩
  · intro rpc pc conn contract err h1 h2 h3 hdial hbind hfail
    rw [statusAction_of_bound w cCtx rpc pc conn contract h1 h2 h3 hdial hbind, hfail]
    exact ⟨rfl, rfl⟩

/-- The statement C9 on the failing network: the create run and the status
run each make one contract call and end with its error. -/
theorem C9_single_attempt_witness :
    (createCmd.Action failingWorld sampleCtx).submissions = 1 ∧
    (createCmd.Action failingWorld sampleCtx).exit = .error "connection refused" ∧
    (statusCmd.Action failingWorld sampleCtx).reads = 1 ∧
    (statusCmd.Action failingWorld sampleCtx).exit = .fatal "connection refused" ∧
    (createCmd.Action failingWorld sampleCtx).trace.length = 3 ∧
    (statusCmd.Action failingWorld sampleCtx).trace.length = 3 := by
  obtain ⟨-, -, hc, hs⟩ := C9_single_attempt failingWorld sampleCtx
  have hv : CreateValid failingWorld sampleCtx "http://localhost:8545" sampleCid sampleCid
      "http://example.com/f.car" (1 : Nat) := ⟨rfl, by decide, rfl, rfl, rfl, rfl⟩
  obtain ⟨c1, c2⟩ := hc "http://localhost:8545" sampleCid sampleCid "http://example.com/f.car"
    (1 : Nat) "http://localhost:8545" (List.replicate 19 0 ++ [1]) _ "connection refused"
    hv rfl rfl (dealRequest_createFlagsOf _ _ _ _ _ _ _) rfl
  obtain ⟨s1, s2⟩ := hs "http://localhost:8545" sampleCid "http://localhost:8545"
    (List.replicate 19 0 ++ [1]) "connection refused" rfl (by decide) rfl rfl rfl rfl
  refine ⟨?_, c2, ?_, s2, ?_, ?_⟩
  · rw [Run.submissions, c1]; rfl
  · rw [Run.reads, s1]; rfl
  · rw [c1]; rfl
  · rw [s1]; rfl

/-- C5 (amended): in the end-to-end create scenario with a contract that
`IsHexAddress` accepts (40 hexadecimal digits, such as
`0x0000000000000000000000000000000000000001`), valid CIDs and key, and the
dial and the binding succeeding, the run submits exactly one `DealRequest`,
with `ExtraParamsVersion = 1` and `ExtraParams.CarSize = 2048`. -/
theorem C5_create_scenario {T : Carriers} (w : World T)
    (contract pieceCid payloadCid privateKey : String)
    (rpcEndpoint locationRef : T.URL) (pieceCID payloadCID : Cid) (pk : T.PrivateKey)
    (conn : T.Conn) (bound : T.Contract)
    (hrpc : w.urlParse "http://localhost:8545" = .ok rpcEndpoint)
    (hcontract : IsHexAddress contract = true)
    (hpiece : w.cidDecode pieceCid = .ok pieceCID)
    (hpayload : w.cidDecode payloadCid = .ok payloadCID)
    (hloc : w.urlParse "http://example.com/f.car" = .ok locationRef)
    (hkey : w.hexToECDSA privateKey = .ok pk)
    (hdial : w.dial (w.urlString rpcEndpoint) = .ok conn)
    (hbind : w.newContract (w.hexToAddress contract) conn = .ok bound) :
    ∃ req,
      (createCmd.Action w (scenarioCtx contract pieceCid payloadCid privateKey)).submitted
        = [req] ∧
      req.ExtraParamsVersion = 1 ∧
      req.ExtraParams.CarSize = 2048 ∧
      (createCmd.Action w (scenarioCtx contract pieceCid payloadCid privateKey)).submissions
        = 1 := by
  have hv : CreateValid w (scenarioCtx contract pieceCid payloadCid privateKey) rpcEndpoint
      pieceCID payloadCID locationRef pk := ⟨hrpc, hcontract, hpiece, hpayload, hloc, hkey⟩
  obtain ⟨req, hreq⟩ : ∃ req, dealRequest w (createFlagsOf w
      (scenarioCtx contract pieceCid payloadCid privateKey) rpcEndpoint pieceCID payloadCID
      locationRef pk) = some req := ⟨_, dealRequest_createFlagsOf _ _ _ _ _ _ _⟩
  have hrun := createAction_of_bound w (scenarioCtx contract pieceCid payloadCid privateKey)
    rpcEndpoint pieceCID payloadCID locationRef pk conn bound req hv hdial hbind hreq
  rw [dealRequest_createFlagsOf] at hreq
  refine ⟨req, ?_, ?_, ?_, ?_⟩
  · rw [hrun]
    split <;> simp [Run.submitted]
  · cases hreq
    rfl
  · cases hreq
    show uint64 2048 = 2048
    decide
  · rw [hrun]
    split <;> simp [Run.submissions, Event.isSubmit]

/-- The statement C5 in the sample world with the 40-digit address 1. -/
theorem C5_create_scenario_witness :
    IsHexAddress sampleAddress = true ∧
    ∃ req,
      (createCmd.Action sampleWorld
        (scenarioCtx sampleAddress "bafkqaaa" "bafkqaaa" sampleKey)).submitted = [req] ∧
      req.ExtraParamsVersion = 1 ∧
      req.ExtraParams.CarSize = 2048 ∧
      (createCmd.Action sampleWorld
        (scenarioCtx sampleAddress "bafkqaaa" "bafkqaaa" sampleKey)).submissions = 1 :=
  ⟨by decide,
    C5_create_scenario sampleWorld sampleAddress "bafkqaaa" "bafkqaaa" sampleKey
      "http://localhost:8545" "http://example.com/f.car" sampleCid sampleCid (1 : Nat)
      "http://localhost:8545" (List.replicate 19 0 ++ [1]) rfl (by decide) rfl rfl rfl rfl rfl rfl⟩

/-- C5 as stated fails: the contract of the scenario,
`0x00000000000000000000000000000000000001`, has 38 digits, `IsHexAddress`
rejects it, and the run ends with the validation error without building or
submitting a request. -/
theorem C5_scenario_contract_counterexample :
    IsHexAddress "0x00000000000000000000000000000000000001" = false ∧
    (createCmd.Action sampleWorld
      (scenarioCtx "0x00000000000000000000000000000000000001" "bafkqaaa" "bafkqaaa"
        sampleKey)).submissions = 0 ∧
    (createCmd.Action sampleWorld
      (scenarioCtx "0x00000000000000000000000000000000000001" "bafkqaaa" "bafkqaaa"
        sampleKey)).submitted = [] ∧
    (createCmd.Action sampleWorld
      (scenarioCtx "0x00000000000000000000000000000000000001" "bafkqaaa" "bafkqaaa"
        sampleKey)).exit = .error "contract is not an ETH address" :=
  ⟨by decide, by decide, by decide, by decide⟩

/-! ## The address check (C2, C3) -/

section AddressCheck

theorem has0xPrefix_iff (l : List Char) :
    has0xPrefix l = true ↔ ∃ p body, l = '0' :: p :: body ∧ (p = 'x' ∨ p = 'X') := by
  match l with
  | [] => simp [has0xPrefix]
  | [_] => simp [has0xPrefix]
  | c0 :: c1 :: rest =>
    simp only [has0xPrefix, Bool.and_eq_true, Bool.or_eq_true, beq_iff_eq, List.cons.injEq]
    constructor
    · rintro ⟨rfl, h⟩
      exact ⟨c1, rest, ⟨rfl, rfl, rfl⟩, h⟩
    · rintro ⟨p, body, ⟨rfl, rfl, rfl⟩, h⟩
      exact ⟨rfl, h⟩

theorem length40_isHex_iff (l : List Char) :
    (l.length == 2 * AddressLength && isHex l) = true ↔ hexDigits40 l := by
  simp only [AddressLength, Bool.and_eq_true, beq_iff_eq, hexDigits40]
  constructor
  · rintro ⟨hlen, hhex⟩
    refine ⟨hlen, ?_⟩
    simpa [isHex, hlen] using hhex
  · rintro ⟨hlen, hall⟩
    refine ⟨hlen, ?_⟩
    simpa [isHex, hlen] using hall

/-- The strings that `IsHexAddress` accepts: 40 hexadecimal digits, bare or
after `0x` or `0X`. -/
theorem isHexAddress_iff (s : String) :
    IsHexAddress s = true ↔
      hexDigits40 s.toList ∨
      ∃ p body, s.toList = '0' :: p :: body ∧ (p = 'x' ∨ p = 'X') ∧ hexDigits40 body := by
  unfold IsHexAddress
  simp only
  by_cases hp : has0xPrefix s.toList = true
  · rw [if_pos hp, length40_isHex_iff]
    obtain ⟨p, body, hl, hx⟩ := (has0xPrefix_iff _).1 hp
    rw [hl]
    simp only [List.drop_succ_cons, List.drop_zero]
    constructor
    · intro h
      exact Or.inr ⟨p, body, rfl, hx, h⟩
    · rintro (h | ⟨p2, body2, h1, -, h2⟩)
      · exfalso
        have hm := h.2 p (by simp)
        rcases hx with rfl | rfl <;> exact absurd hm (by decide)
      · cases h1
        exact h2
  · rw [if_neg hp, length40_isHex_iff]
    constructor
    · exact Or.inl
    · rintro (h | ⟨p, body, h1, hx, -⟩)
      · exact h
      · exact absurd ((has0xPrefix_iff _).2 ⟨p, body, h1, hx⟩) hp

theorem isHexAddress_of_wellFormed (s : String) (h : wellFormedHexAddress s = true) :
    IsHexAddress s = true := by
  unfold wellFormedHexAddress at h
  split at h
  · rename_i body hl
    simp only [Bool.and_eq_true, beq_iff_eq, List.all_eq_true] at h
    exact (isHexAddress_iff s).2 (Or.inr ⟨'x', body, hl, Or.inl rfl, h.1.1, h.1.2⟩)
  · cases h

variable {T : Carriers}

theorem validateCreate_of_rejected (w : World T) (cCtx : Context) (rpcEndpoint : T.URL)
    (h1 : w.urlParse cCtx.rpcEndpoint = .ok rpcEndpoint)
    (h2 : IsHexAddress cCtx.contract = false) :
    ValidateCreateFlags w cCtx = .err "contract is not an ETH address" := by
  simp [ValidateCreateFlags, h1, h2]

theorem validateStatus_of_rejected (w : World T) (cCtx : Context) (rpcEndpoint : T.URL)
    (h1 : w.urlParse cCtx.rpcEndpoint = .ok rpcEndpoint)
    (h2 : IsHexAddress cCtx.contract = false) :
    ValidateStatusFlags w cCtx = .err "contract is not an ETH address" := by
  simp [ValidateStatusFlags, h1, h2]

theorem validateStatus_err_of_rejected (w : World T) (cCtx : Context)
    (h2 : IsHexAddress cCtx.contract = false) :
    ∃ e, ValidateStatusFlags w cCtx = .err e := by
  cases h1 : w.urlParse cCtx.rpcEndpoint with
  | error e => exact ⟨e, by simp [ValidateStatusFlags, h1]⟩
  | ok rpc => exact ⟨_, validateStatus_of_rejected w cCtx rpc h1 h2⟩

end AddressCheck

/-- C2 (amended): the contract check of both validators accepts exactly the
strings of 40 hexadecimal digits, bare or after `0x` or `0X`, whatever the
case of the letters: it accepts every well-formed checksummed address, rejects
every string that fails the length or digit format (such as `0x123`), and does
not examine the checksum.  A rejected contract never yields a flag bundle, and
when the rpc-endpoint parses the validator returns the error
`contract is not an ETH address`. -/
theorem C2_contract_check {T : Carriers} (w : World T) (cCtx : Context) :
    (∀ s, IsHexAddress s = true ↔
      hexDigits40 s.toList ∨
      ∃ p body, s.toList = '0' :: p :: body ∧ (p = 'x' ∨ p = 'X') ∧ hexDigits40 body) ∧
    (∀ s, wellFormedHexAddress s = true → IsHexAddress s = true) ∧
    IsHexAddress "0x123" = false ∧
    (IsHexAddress cCtx.contract = false →
      (∀ flags, ValidateCreateFlags w cCtx ≠ .ok flags) ∧
      (∀ flags, ValidateStatusFlags w cCtx ≠ .ok flags) ∧
      (∀ rpcEndpoint, w.urlParse cCtx.rpcEndpoint = .ok rpcEndpoint →
        ValidateCreateFlags w cCtx = .err "contract is not an ETH address" ∧
        ValidateStatusFlags w cCtx = .err "contract is not an ETH address")) := by
  refine ⟨isHexAddress_iff, isHexAddress_of_wellFormed, by decide, ?_⟩
  intro h
  refine ⟨validateCreate_not_ok_of_fails w cCtx (Or.inr (Or.inl h)),
    validateStatus_not_ok_of_fails w cCtx (Or.inr (Or.inl h)), ?_⟩
  intro rpc h1
  exact ⟨validateCreate_of_rejected w cCtx rpc h1 h, validateStatus_of_rejected w cCtx rpc h1 h⟩

/-- The statement C2 at the contract `0x123` in the sample world. -/
theorem C2_contract_check_witness :
    IsHexAddress ({ sampleCtx with contract := "0x123" } : Context).contract = false ∧
    ValidateCreateFlags sampleWorld { sampleCtx with contract := "0x123" } =
      .err "contract is not an ETH address" ∧
    ValidateStatusFlags sampleWorld { sampleCtx with contract := "0x123" } =
      .err "contract is not an ETH address" :=
  ⟨by decide,
    ((C2_contract_check sampleWorld { sampleCtx with contract := "0x123" }).2.2.2
      (by decide)).2.2 "http://localhost:8545" rfl⟩

theorem wellFormed_sample_checksum :
    wellFormedHexAddress "0x5aAeb6053F3E94C9b9A09f33669435E7Ef1BeAed" = true := by
  decide!

theorem toChecksumCase_miscased :
    toChecksumCase "5AAeb6053F3E94C9b9A09f33669435E7Ef1BeAed".toList =
      "5aAeb6053F3E94C9b9A09f33669435E7Ef1BeAed".toList := by
  decide!

theorem wellFormed_miscased :
    wellFormedHexAddress "0x5AAeb6053F3E94C9b9A09f33669435E7Ef1BeAed" = false := by
  decide!

theorem isHexAddress_miscased :
    IsHexAddress "0x5AAeb6053F3E94C9b9A09f33669435E7Ef1BeAed" = true := by
  decide

/-- C2 as stated fails twice.  The digits `5aAeb6053F3E94C9b9A09f33669435E7Ef1BeAed`
are in checksum casing; with the second letter turned into a capital the
string fails the checksum and `IsHexAddress` accepts it all the same.  And with
the rpc-endpoint `:foo` the rejected contract `0x123` makes the validator
return the error of `url.Parse`, not `contract is not an ETH address`. -/
theorem C2_checksum_counterexample :
    wellFormedHexAddress "0x5aAeb6053F3E94C9b9A09f33669435E7Ef1BeAed" = true ∧
    toChecksumCase "5AAeb6053F3E94C9b9A09f33669435E7Ef1BeAed".toList =
      "5aAeb6053F3E94C9b9A09f33669435E7Ef1BeAed".toList ∧
    wellFormedHexAddress "0x5AAeb6053F3E94C9b9A09f33669435E7Ef1BeAed" = false ∧
    IsHexAddress "0x5AAeb6053F3E94C9b9A09f33669435E7Ef1BeAed" = true ∧
    IsHexAddress "0x123" = false ∧
    ValidateCreateFlags sampleWorld { sampleCtx with rpcEndpoint := ":foo", contract := "0x123" } =
      .err "parse \":foo\": missing protocol scheme" :=
  ⟨wellFormed_sample_checksum, toChecksumCase_miscased, wellFormed_miscased,
    isHexAddress_miscased, by decide, rfl⟩

/-- C3 (amended): in the status command, for every contract string that lacks
the `0x` prefix and is not 40 hexadecimal digits, bare or after `0X` (with any
rpc-endpoint and piece-cid), `ValidateStatusFlags` returns a validation error
and the run has an empty trace, so no RPC dial. -/
theorem C3_status_contract_rejected {T : Carriers} (w : World T) (cCtx : Context)
    (hlack : lacks0xPrefix cCtx.contract)
    (hbare : ¬ hexDigits40 cCtx.contract.toList)
    (hupper : ¬ ∃ body, cCtx.contract.toList = '0' :: 'X' :: body ∧ hexDigits40 body) :
    (∃ e, ValidateStatusFlags w cCtx = .err e) ∧
    (statusCmd.Action w cCtx).trace = [] ∧
    (statusCmd.Action w cCtx).trace.any Event.isDial = false ∧
    (statusCmd.Action w cCtx).exit ≠ .success := by
  have hrej : IsHexAddress cCtx.contract = false := by
    rw [← Bool.not_eq_true, isHexAddress_iff]
    rintro (h | ⟨p, body, hl, rfl | rfl, hd⟩)
    · exact hbare h
    · exact hlack (by rw [hl]; rfl)
    · exact hupper ⟨body, hl, hd⟩
  obtain ⟨h1, h2⟩ := statusAction_of_not_ok w cCtx
    (validateStatus_not_ok_of_fails w cCtx (Or.inr (Or.inl hrej)))
  exact ⟨validateStatus_err_of_rejected w cCtx hrej, h1, by rw [h1]; rfl, h2⟩

/-- The statement C3 at the contract `123` in the sample world. -/
theorem C3_status_contract_rejected_witness :
    lacks0xPrefix ({ sampleCtx with contract := "123" } : Context).contract ∧
    (∃ e, ValidateStatusFlags sampleWorld { sampleCtx with contract := "123" } = .err e) ∧
    (statusCmd.Action sampleWorld { sampleCtx with contract := "123" }).trace = [] :=
  have hlack : lacks0xPrefix ({ sampleCtx with contract := "123" } : Context).contract := by
    decide
  have h := C3_status_contract_rejected sampleWorld { sampleCtx with contract := "123" } hlack
    (fun h => absurd h.1 (by decide))
    (by
      rintro ⟨body, hl, -⟩
      change ['1', '2', '3'] = _ at hl
      cases hl)
  ⟨hlack, h.1, h.2.1⟩

/-- C3 as stated fails: the contract `0000000000000000000000000000000000000001`
lacks the `0x` prefix, `ValidateStatusFlags` accepts it, and the status run
dials the RPC endpoint. -/
theorem C3_unprefixed_counterexample :
    lacks0xPrefix "0000000000000000000000000000000000000001" ∧
    IsHexAddress "0000000000000000000000000000000000000001" = true ∧
    (∃ flags, ValidateStatusFlags sampleWorld
      { sampleCtx with contract := "0000000000000000000000000000000000000001" } = .ok flags) ∧
    (statusCmd.Action sampleWorld
      { sampleCtx with contract := "0000000000000000000000000000000000000001" }).trace.any
        Event.isDial = true :=
  ⟨by decide, by decide, ⟨_, rfl⟩, by decide⟩

/-! ## Absent flags (C6) -/

section AbsentFlags

theorem isHexAddress_empty : IsHexAddress "" = false := by decide

end AbsentFlags

/-- C6 (amended): when `cid.Decode` and `crypto.HexToECDSA` reject the empty
string, a create command line in which contract, piece-cid, payload-cid or the
private-key is absent (empty) yields no flag bundle, and so does a status
command line in which contract or piece-cid is absent.  The flags chain-id,
rpc-endpoint and location-ref are not required: a command line that validates
still validates with chain-id 0, and, when `url.Parse` accepts the empty
string, with an empty rpc-endpoint or location-ref. -/
theorem C6_required_flags {T : Carriers} (w : World T) (cCtx : Context)
    (hcid : ∃ e, w.cidDecode "" = .error e) (hkey : ∃ e, w.hexToECDSA "" = .error e) :
    ((cCtx.contract = "" ∨ cCtx.pieceCid = "" ∨ cCtx.payloadCid = "" ∨ cCtx.privateKey = "") →
      ∀ flags, ValidateCreateFlags w cCtx ≠ .ok flags) ∧
    ((cCtx.contract = "" ∨ cCtx.pieceCid = "") →
      ∀ flags, ValidateStatusFlags w cCtx ≠ .ok flags) ∧
    (∀ flags, ValidateCreateFlags w cCtx = .ok flags →
      ValidateCreateFlags w { cCtx with chainId := 0 } = .ok { flags with ChainID := 0 }) ∧
    (∀ u flags, w.urlParse "" = .ok u → ValidateCreateFlags w cCtx = .ok flags →
      ValidateCreateFlags w { cCtx with rpcEndpoint := "" } =
        .ok { flags with RPCEndpoint := some u } ∧
      ValidateCreateFlags w { cCtx with locationRef := "" } =
        .ok { flags with LocationRef := some u }) ∧
    (∀ u flags, w.urlParse "" = .ok u → ValidateStatusFlags w cCtx = .ok flags →
      ValidateStatusFlags w { cCtx with rpcEndpoint := "" } =
        .ok { flags with RPCEndpoint := some u }) := by
  refine ⟨?_, ?_, ?_, ?_, ?_⟩
  · intro h
    apply validateCreate_not_ok_of_fails
    rcases h with h | h | h | h
    · exact Or.inr (Or.inl (by rw [h]; exact isHexAddress_empty))
    · exact Or.inr (Or.inr (Or.inl (by rw [h]; exact hcid)))
    · exact Or.inr (Or.inr (Or.inr (Or.inl (by rw [h]; exact hcid))))
    · exact Or.inr (Or.inr (Or.inr (Or.inr (Or.inr (by rw [h]; exact hkey)))))
  · intro h
    apply validateStatus_not_ok_of_fails
    rcases h with h | h
    · exact Or.inr (Or.inl (by rw [h]; exact isHexAddress_empty))
    · exact Or.inr (Or.inr (by rw [h]; exact hcid))
  · intro flags h
    obtain ⟨rpc, pc, pl, loc, pk, hv, rfl⟩ := validateCreate_ok_inv w cCtx flags h
    exact validateCreate_of_valid w { cCtx with chainId := 0 } rpc pc pl loc pk hv
  · intro u flags hu h
    obtain ⟨rpc, pc, pl, loc, pk, ⟨h1, h2, h3, h4, h5, h6⟩, rfl⟩ :=
      validateCreate_ok_inv w cCtx flags h
    exact ⟨validateCreate_of_valid w { cCtx with rpcEndpoint := "" } u pc pl loc pk
        ⟨hu, h2, h3, h4, h5, h6⟩,
      validateCreate_of_valid w { cCtx with locationRef := "" } rpc pc pl u pk
        ⟨h1, h2, h3, h4, hu, h6⟩⟩
  · intro u flags hu h
    obtain ⟨rpc, pc, h1, h2, h3, rfl⟩ := validateStatus_ok_inv w cCtx flags h
    have h2' : IsHexAddress ({ cCtx with rpcEndpoint := "" } : Context).contract = true := h2
    have h3' : w.cidDecode ({ cCtx with rpcEndpoint := "" } : Context).pieceCid = .ok pc := h3
    have hu' : w.urlParse ({ cCtx with rpcEndpoint := "" } : Context).rpcEndpoint = .ok u := hu
    simp only [ValidateStatusFlags, hu', h2', h3']
    rfl

/-- The statement C6 in the sample world: without a contract neither validator
returns a bundle, and the sample command line validates with chain-id 0. -/
theorem C6_required_flags_witness :
    (∃ e, sampleWorld.cidDecode "" = .error e) ∧
    (∃ e, sampleWorld.hexToECDSA "" = .error e) ∧
    (∀ flags, ValidateCreateFlags sampleWorld { sampleCtx with contract := "" } ≠ .ok flags) ∧
    (∀ flags, ValidateStatusFlags sampleWorld { sampleCtx with contract := "" } ≠ .ok flags) ∧
    ValidateCreateFlags sampleWorld { sampleCtx with chainId := 0 } =
      .ok { sampleFlags with ChainID := 0 } :=
  have hcid : ∃ e, sampleWorld.cidDecode "" = .error e := ⟨_, rfl⟩
  have hkey : ∃ e, sampleWorld.hexToECDSA "" = .error e := ⟨_, rfl⟩
  ⟨hcid, hkey,
    (C6_required_flags sampleWorld { sampleCtx with contract := "" } hcid hkey).1 (Or.inl rfl),
    (C6_required_flags sampleWorld { sampleCtx with contract := "" } hcid hkey).2.1 (Or.inl rfl),
    (C6_required_flags sampleWorld sampleCtx hcid hkey).2.2.1 sampleFlags rfl⟩

/-- C6 as stated fails: in the sample world the create command line validates
without a chain-id, without an rpc-endpoint and without a location-ref, and
the status command line validates without an rpc-endpoint. -/
theorem C6_absent_flags_counterexample :
    (∃ flags, ValidateCreateFlags sampleWorld { sampleCtx with chainId := 0 } = .ok flags) ∧
    (∃ flags, ValidateCreateFlags sampleWorld { sampleCtx with rpcEndpoint := "" } = .ok flags) ∧
    (∃ flags, ValidateCreateFlags sampleWorld { sampleCtx with locationRef := "" } = .ok flags) ∧
    (∃ flags, ValidateStatusFlags sampleWorld { sampleCtx with rpcEndpoint := "" } = .ok flags) :=
  ⟨⟨_, rfl⟩, ⟨_, rfl⟩, ⟨_, rfl⟩, ⟨_, rfl⟩⟩

end Dealmaker
